import Mathlib

/-!
Verification of the query/filter/pagination core of `app.py` (business
directory browser).  The Python source is shallowly embedded: SQLite values
become an inductive `Value`, rows become association lists, the dynamically
built WHERE clause becomes a list of structured clauses together with a
renderer producing the exact SQL text and bound-parameter list that the
Python code produces, and SQLite's execution of the generated SQL is
modelled by executable Lean functions (`likeMatch` for SQL `LIKE`,
`fetchPage` for the ordered page query, with column-resolution errors
modelled by `Except`).
-/

namespace DentalDb

/-- A SQLite cell value: NULL, TEXT, or INTEGER (enough for this app). -/
inductive Value where
  | null
  | str (s : String)
  | num (n : Int)
deriving DecidableEq, Repr

/-- A row is an association list from column name to value. -/
abbrev Row := List (String × Value)

/-- Reading a column of a row; a column not stored in the row reads as NULL. -/
def getVal (r : Row) (c : String) : Value :=
  match r.find? (fun p => p.1 = c) with
  | some p => p.2
  | none => Value.null

/-- Python `s.startswith(p)`. -/
def strStartsWith (s p : String) : Bool :=
  p.toList.isPrefixOf s.toList

/-- Python `s.strip()`: remove leading and trailing whitespace. -/
def pyStrip (s : String) : String :=
  String.mk
    (((s.toList.dropWhile Char.isWhitespace).reverse.dropWhile
        Char.isWhitespace).reverse)

/-- The prefix of `l` before the first occurrence of `sep`:
Python `s.split(sep)[0]`. -/
def splitFirst (sep : List Char) : List Char → List Char
  | [] => []
  | c :: cs => if sep.isPrefixOf (c :: cs) then [] else c :: splitFirst sep cs

/-- `app.py` line 143: `name_col = "name_std" if "name_std" in existing else
("name" if "name" in existing else None)`. -/
def name_col (existing : List String) : Option String :=
  if "name_std" ∈ existing then some "name_std"
  else if "name" ∈ existing then some "name" else none

/-- `app.py` line 145: `state_field = "state_std" if "state_std" in existing
else ("state" if "state" in existing else None)`. -/
def state_field (existing : List String) : Option String :=
  if "state_std" ∈ existing then some "state_std"
  else if "state" ∈ existing then some "state" else none

/-- `app.py` line 179: `zip_field = "postal_code_std" if "postal_code_std" in
existing else ("postal_code" if "postal_code" in existing else None)`. -/
def zip_field (existing : List String) : Option String :=
  if "postal_code_std" ∈ existing then some "postal_code_std"
  else if "postal_code" ∈ existing then some "postal_code" else none

/-- `app.py` line 157: `kw_fields = [c for c in [name_col, "full_address",
"site"] if c and c in existing]`. -/
def kw_fields (existing : List String) : List String :=
  (([name_col existing, some "full_address", some "site"]).filterMap id).filter
    (fun c => c ∈ existing)

/-- Fuelled matcher for SQLite `LIKE` patterns: `%` matches any sequence,
`_` any single character, other characters match ASCII-case-insensitively.
The fuel argument only serves termination; `likeMatch` supplies enough. -/
def likeFuel : Nat → List Char → List Char → Bool
  | 0, _, _ => false
  | _ + 1, [], s => s.isEmpty
  | f + 1, p :: ps, s =>
    if p = '%' then
      likeFuel f ps s ||
        (match s with
         | [] => false
         | _ :: t => likeFuel f (p :: ps) t)
    else
      match s with
      | [] => false
      | c :: t =>
        if p = '_' then likeFuel f ps t
        else (p.toLower = c.toLower) && likeFuel f ps t

/-- SQLite `value LIKE pattern` (default, no ESCAPE clause). -/
def likeMatch (pat s : String) : Bool :=
  likeFuel (pat.length + s.length + 1) pat.toList s.toList

/-- SQLite `LIKE` applied to a stored value: NULL never matches, numbers are
compared through their text representation. -/
def likeMatchV (pat : String) : Value → Bool
  | Value.null => false
  | Value.str s => likeMatch pat s
  | Value.num n => likeMatch pat (toString n)

/-- One conjunct of the WHERE clause built at `app.py` lines 166-183. -/
inductive Clause where
  | kwGroup (cols : List String) (pat : String)
  | colEq (col : String) (v : String)
  | colLike (col : String) (pat : String)
deriving DecidableEq, Repr

/-- Python `sep.join(xs)`. -/
def joinStr (sep : String) : List String → String
  | [] => ""
  | [x] => x
  | x :: y :: xs => x ++ sep ++ joinStr sep (y :: xs)

/-- The SQL text of a clause, exactly as the Python f-strings build it:
`f"({like_clause})"`, `"city = ?"` / `f"{state_field} = ?"`,
`f"{zip_field} LIKE ?"`.  User values never appear here. -/
def renderClause : Clause → String
  | Clause.kwGroup cols _ =>
      "(" ++ joinStr " OR " (cols.map (fun c => c ++ " LIKE ?")) ++ ")"
  | Clause.colEq c _ => c ++ " = ?"
  | Clause.colLike c _ => c ++ " LIKE ?"

/-- The bound parameters a clause contributes:
`params += [f"%{q}%"] * len(kw_fields)`, `params.append(city)`, etc. -/
def clauseParams : Clause → List String
  | Clause.kwGroup cols pat => List.replicate cols.length pat
  | Clause.colEq _ v => [v]
  | Clause.colLike _ pat => [pat]

/-- SQLite evaluating one rendered clause on a row with its parameters bound. -/
def evalClause (r : Row) : Clause → Bool
  | Clause.kwGroup cols pat => cols.any (fun c => likeMatchV pat (getVal r c))
  | Clause.colEq c v =>
      match getVal r c with
      | Value.str s => s = v
      | _ => false
  | Clause.colLike c pat => likeMatchV pat (getVal r c)

/-- SQLite evaluating the AND of all clauses (empty WHERE matches all rows). -/
def matchesAll (cs : List Clause) (r : Row) : Bool :=
  cs.all (evalClause r)

/-- `app.py` lines 166-183: the WHERE clause built from the four optional
filters.  Each filter is appended only under the source's condition:
keyword needs a non-empty `q` and a non-empty `kw_fields`; city needs the
`city` column and a non-sentinel selection; state needs a resolved state
field and a non-sentinel selection; ZIP needs a resolved postal-code field
and a non-empty stripped input. -/
def buildWhere (existing : List String) (q city state zipInput : String) :
    List Clause :=
  (if q ≠ "" ∧ kw_fields existing ≠ [] then
      [Clause.kwGroup (kw_fields existing) ("%" ++ q ++ "%")]
    else []) ++
  (if "city" ∈ existing ∧ city ≠ "(any)" then [Clause.colEq "city" city]
    else []) ++
  (match state_field existing with
   | some f => if state ≠ "(any)" then [Clause.colEq f state] else []
   | none => []) ++
  (match zip_field existing with
   | some f =>
       if pyStrip zipInput ≠ "" then
         [Clause.colLike f (pyStrip zipInput ++ "%")]
       else []
   | none => [])

/-- `app.py` line 183: `where_sql = ("WHERE " + " AND ".join(where)) if where
else ""`. -/
def whereSqlOf (cs : List Clause) : String :=
  if cs = [] then "" else "WHERE " ++ joinStr " AND " (cs.map renderClause)

/-- The bound-parameter list accompanying the WHERE clause. -/
def paramsOf (cs : List Clause) : List String :=
  (cs.map clauseParams).flatten

/-- The database: set of columns of the working table, plus its rows. -/
structure Db where
  cols : List String
  rows : List Row
deriving DecidableEq, Repr

/-- `SELECT COUNT(*) FROM table {where}` (`app.py` lines 109-110). -/
def countAll (db : Db) (cs : List Clause) : Nat :=
  (db.rows.filter (matchesAll cs)).length

/-- `app.py` lines 132-135: prefer table `records_norm`, else `records`. -/
def pickTable (tables : List String) : Option String :=
  if "records_norm" ∈ tables then some "records_norm"
  else if "records" ∈ tables then some "records" else none

/-- `app.py` lines 225-235: the `(column, label)` candidates for the visible
columns; `none` marks the Python `None` entries. -/
def select_schema (existing : List String) : List (Option String × String) :=
  [ (if (name_col existing).isSome then
       some (if "name_std" ∈ existing then "name_std" else "name")
     else none, "Name"),
    (some "phone", "Phone"),
    (some "full_address", "Address"),
    (some "city", "City"),
    (match state_field existing with
     | some f => (some f, "State")
     | none => (none, "")),
    (match zip_field existing with
     | some f => (some f, "ZIP")
     | none => (none, "")),
    (some "country", "Country"),
    (some "location_link", "Map"),
    (some "site", "Website") ]

/-- The surviving `(column, label)` pairs: `if col and col in existing`. -/
def select_pairs (existing : List String) : List (String × String) :=
  (select_schema existing).filterMap (fun p =>
    match p.1 with
    | some c => if c ∈ existing then some (c, p.2) else none
    | none => none)

/-- `app.py` line 236: `select_list = [f'{col} AS "{label}"' ...]`. -/
def select_list (existing : List String) : List String :=
  (select_pairs existing).map (fun p => p.1 ++ " AS \"" ++ p.2 ++ "\"")

/-- `app.py` line 241: `order_expr = "COALESCE(name_std, name)" if
("name_std" in existing or "name" in existing) else
select_list[0].split(" AS ")[0]`. -/
def order_expr (existing : List String) (selectList : List String) : String :=
  if "name_std" ∈ existing ∨ "name" ∈ existing then "COALESCE(name_std, name)"
  else String.mk (splitFirst " AS ".toList (selectList.headD "").toList)

/-- The full text of the paginated query (`app.py` lines 243-249).  Bound
values are the `?` placeholders; only identifiers are interpolated. -/
def pageSql (table : String) (existing : List String) (cs : List Clause) :
    String :=
  "\nSELECT " ++ joinStr ", " (select_list existing) ++
  "\nFROM " ++ table ++
  "\n" ++ whereSqlOf cs ++
  "\nORDER BY " ++ order_expr existing (select_list existing) ++
  "\nLIMIT ? OFFSET ?;\n"

/-- Lexicographic order on character lists (SQLite BINARY collation). -/
def listCharLe : List Char → List Char → Bool
  | [], _ => true
  | _ :: _, [] => false
  | a :: as, b :: bs =>
      if a.toNat < b.toNat then true
      else if b.toNat < a.toNat then false
      else listCharLe as bs

/-- SQLite's cross-type ordering on stored values: NULL, then numbers, then
text (BINARY collation). -/
def valLe : Value → Value → Bool
  | Value.null, _ => true
  | _, Value.null => false
  | Value.num a, Value.num b => decide (a ≤ b)
  | Value.num _, Value.str _ => true
  | Value.str _, Value.num _ => false
  | Value.str a, Value.str b => listCharLe a.toList b.toList

/-- Insertion step of a stable insertion sort. -/
def insertLe {α : Type} (le : α → α → Bool) (x : α) : List α → List α
  | [] => [x]
  | y :: ys => if le x y then x :: y :: ys else y :: insertLe le x ys

/-- Stable insertion sort, modelling `ORDER BY ... ASC`. -/
def sortRows {α : Type} (le : α → α → Bool) : List α → List α
  | [] => []
  | x :: xs => insertLe le x (sortRows le xs)

/-- SQLite resolving the column references of the ORDER BY expression at
prepare time: `COALESCE(name_std, name)` names both columns and fails with
`no such column` if either is absent from the table; a bare column name
must be present. -/
def orderKeyOk (cols : List String) (e : String) : Except String Unit :=
  if e = "COALESCE(name_std, name)" then
    if "name_std" ∈ cols then
      if "name" ∈ cols then Except.ok ()
      else Except.error "no such column: name"
    else Except.error "no such column: name_std"
  else if e ∈ cols then Except.ok ()
  else Except.error ("no such column: " ++ e)

/-- The sort key of a row under the ORDER BY expression (after successful
column resolution). -/
def orderKeyVal (r : Row) (e : String) : Value :=
  if e = "COALESCE(name_std, name)" then
    match getVal r "name_std" with
    | Value.null => getVal r "name"
    | v => v
  else getVal r e

/-- `SELECT ... FROM table {where} ORDER BY {order_expr} LIMIT ? OFFSET ?`
(`app.py` lines 243-253): filter, sort ascending by the order key, apply
OFFSET then LIMIT.  A column-resolution failure is the SQLite error that
`pd.read_sql` raises. -/
def fetchPage (db : Db) (cs : List Clause) (e : String)
    (limit offset : Nat) : Except String (List Row) :=
  match orderKeyOk db.cols e with
  | Except.error msg => Except.error msg
  | Except.ok _ =>
      let rows := db.rows.filter (matchesAll cs)
      let sorted := sortRows (fun a b => valLe (orderKeyVal a e) (orderKeyVal b e)) rows
      Except.ok ((sorted.drop offset).take limit)

/-- `app.py` line 207: `max_page = max(1, (filtered_rows + page_size - 1) //
page_size)`. -/
def maxPage (filteredRows pageSize : Nat) : Nat :=
  max 1 ((filteredRows + pageSize - 1) / pageSize)

/-- `app.py` lines 208-209: `if page > max_page: page = max_page` then
`if page < 1: page = 1`. -/
def clampPage (p m : Int) : Int :=
  let p1 := if p > m then m else p
  if p1 < 1 then 1 else p1

/-- `app.py` lines 205-206: the page state starts at 1. -/
def initPage : Int := 1

/-- `app.py` lines 217-218: Next increments only while `page < max_page`. -/
def nextPage (p m : Int) : Int :=
  if p < m then p + 1 else p

/-- `app.py` lines 214-215: Prev decrements only while `page > 1`. -/
def prevPage (p : Int) : Int :=
  if 1 < p then p - 1 else p

/-- The stored page values reachable across script runs: each run first
clamps the stored page against the current `max_page` (always at least 1),
then at most one of the Prev/Next buttons fires. -/
inductive ReachablePage : Int → Prop where
  | init : ReachablePage 1
  | stepNone {p m : Int} : ReachablePage p → 1 ≤ m →
      ReachablePage (clampPage p m)
  | stepNext {p m : Int} : ReachablePage p → 1 ≤ m →
      ReachablePage (nextPage (clampPage p m) m)
  | stepPrev {p m : Int} : ReachablePage p → 1 ≤ m →
      ReachablePage (prevPage (clampPage p m))

/-- `app.py` lines 122-125 / the lambda at line 258: a cell becomes an
`Open` anchor exactly for string values with an http/https scheme. -/
def make_link (v : Value) : String :=
  match v with
  | Value.str s =>
      if strStartsWith s "http://" || strStartsWith s "https://" then
        "<a href=\"" ++ s ++ "\" target=\"_blank\">Open</a>"
      else ""
  | _ => ""

/-- `app.py` lines 255-259 on one row: the `Map` and `Website` cells are
replaced by their link markup (or the empty string); other cells are kept. -/
def linkifyRow (r : Row) : Row :=
  r.map (fun p =>
    if p.1 = "Map" ∨ p.1 = "Website" then (p.1, Value.str (make_link p.2))
    else p)

/-- `app.py` lines 255-259 applied to the fetched page. -/
def linkify (df : List Row) : List Row :=
  df.map linkifyRow

/-- The rendered state of one successful script run. -/
structure PageView where
  total_rows : Nat
  filtered_rows : Nat
  max_page : Nat
  page : Int
  rows : List Row
deriving DecidableEq, Repr

/-- One run of the query/pagination portion of the script (`app.py` lines
166-253): build the WHERE clause, run the two count queries, derive and
clamp the page, check the visible columns, and run the page query.
`Except.error` models a Python exception (or `st.stop`) escaping the run:
no query failure is caught anywhere in the script. -/
def scriptRun (db : Db) (q city state zipInput : String)
    (pageSize : Nat) (storedPage : Int) : Except String PageView :=
  let cs := buildWhere db.cols q city state zipInput
  let total := countAll db []
  let filtered := countAll db cs
  let mp := maxPage filtered pageSize
  let p := clampPage storedPage (mp : Int)
  let offset := ((p - 1) * (pageSize : Int)).toNat
  if select_pairs db.cols = [] then Except.error "No expected columns found"
  else
    match fetchPage db cs (order_expr db.cols (select_list db.cols))
        pageSize offset with
    | Except.error msg => Except.error msg
    | Except.ok rows => Except.ok ⟨total, filtered, mp, p, rows⟩

/-- Scenario row with ZIP 94102. -/
def zipRow1 : Row := [("postal_code", Value.str "94102")]

/-- Scenario row with ZIP 94203. -/
def zipRow2 : Row := [("postal_code", Value.str "94203")]

/-- Scenario row with ZIP 94107. -/
def zipRow3 : Row := [("postal_code", Value.str "94107")]

/-- Scenario database holding the three ZIP rows. -/
def zipDb : Db := ⟨["postal_code"], [zipRow1, zipRow2, zipRow3]⟩

/-- Number of `?` placeholders in a SQL string. -/
def countQ (s : String) : Nat :=
  (s.toList.filter (fun ch => ch = '?')).length

end DentalDb

namespace DentalDb

theorem countAll_nil (db : Db) : countAll db [] = db.rows.length := by
  simp [countAll, matchesAll]

theorem pyStrip_empty : pyStrip "" = "" := rfl

theorem clampPage_bounds (p m : Int) (hm : 1 ≤ m) :
    1 ≤ clampPage p m ∧ clampPage p m ≤ m := by
  unfold clampPage
  dsimp only
  split <;> split <;> omega

/-- Claim C6: for every filter set over a fixed database state, the filtered
row count is at most the unfiltered total, and when no filter is active
(empty keyword, sentinel city/state, empty ZIP input) the WHERE clause is
empty and the two counts coincide. -/
theorem c6_filtered_count_le_total (db : Db) (q c s z : String) :
    countAll db (buildWhere db.cols q c s z) ≤ countAll db [] ∧
    (q = "" → c = "(any)" → s = "(any)" → z = "" →
      buildWhere db.cols q c s z = [] ∧
      whereSqlOf (buildWhere db.cols q c s z) = "" ∧
      countAll db (buildWhere db.cols q c s z) = countAll db []) := by
  constructor
  · rw [countAll_nil]
    exact List.length_filter_le _ _
  · intro hq hc hs hz
    subst hq; subst hc; subst hs; subst hz
    have hb : buildWhere db.cols "" "(any)" "(any)" "" = [] := by
      unfold buildWhere
      simp [pyStrip_empty]
      cases state_field db.cols <;> cases zip_field db.cols <;> simp
    exact ⟨hb, by rw [hb]; decide, by rw [hb]⟩

/-- Witness for C6 at a concrete one-row database with no active filters. -/
theorem c6_filtered_count_le_total_witness :
    countAll ⟨["name"], [[("name", Value.str "A")]]⟩
        (buildWhere ["name"] "" "(any)" "(any)" "") =
      countAll ⟨["name"], [[("name", Value.str "A")]]⟩ [] :=
  ((c6_filtered_count_le_total ⟨["name"], [[("name", Value.str "A")]]⟩
      "" "(any)" "(any)" "").2 rfl rfl rfl rfl).2.2

/-- Claim C4: a filter whose underlying column is absent from the schema is
silently dropped: the built WHERE clause equals the one built with that
filter omitted (empty keyword, sentinel city/state, empty ZIP input). -/
theorem c4_absent_column_filter_dropped (existing : List String)
    (q c s z : String) :
    (kw_fields existing = [] →
      buildWhere existing q c s z = buildWhere existing "" c s z) ∧
    ("city" ∉ existing →
      buildWhere existing q c s z = buildWhere existing q "(any)" s z) ∧
    (state_field existing = none →
      buildWhere existing q c s z = buildWhere existing q c "(any)" z) ∧
    (zip_field existing = none →
      buildWhere existing q c s z = buildWhere existing q c s "") := by
  refine ⟨?_, ?_, ?_, ?_⟩ <;> (intro h; unfold buildWhere; simp [h])

/-- Witness for C4 at a schema holding only `phone`, where all four filter
columns are absent. -/
theorem c4_absent_column_filter_dropped_witness :
    (buildWhere ["phone"] "kw" "SF" "CA" "94" =
      buildWhere ["phone"] "" "SF" "CA" "94") ∧
    (buildWhere ["phone"] "kw" "SF" "CA" "94" =
      buildWhere ["phone"] "kw" "(any)" "CA" "94") ∧
    (buildWhere ["phone"] "kw" "SF" "CA" "94" =
      buildWhere ["phone"] "kw" "SF" "(any)" "94") ∧
    (buildWhere ["phone"] "kw" "SF" "CA" "94" =
      buildWhere ["phone"] "kw" "SF" "CA" "") :=
  ⟨(c4_absent_column_filter_dropped ["phone"] "kw" "SF" "CA" "94").1 (by decide),
   (c4_absent_column_filter_dropped ["phone"] "kw" "SF" "CA" "94").2.1 (by decide),
   (c4_absent_column_filter_dropped ["phone"] "kw" "SF" "CA" "94").2.2.1 (by decide),
   (c4_absent_column_filter_dropped ["phone"] "kw" "SF" "CA" "94").2.2.2 (by decide)⟩

/-- Claim C8: a URL-valued cell renders as an `Open` anchor exactly when its
value is a string with an `http://` or `https://` scheme, and as an empty
cell otherwise (null, number, other scheme); `linkify` rewrites only the
`Map`/`Website` cells and leaves every other cell of the row unchanged (it
is a pure formatting step); in particular `ftp://x.com` renders empty. -/
theorem c8_linkify_http_https_only :
    (∀ v : Value, make_link v ≠ "" ↔
      ∃ s, v = Value.str s ∧
        (strStartsWith s "http://" = true ∨ strStartsWith s "https://" = true)) ∧
    (∀ s : String,
      strStartsWith s "http://" = true ∨ strStartsWith s "https://" = true →
      make_link (Value.str s) =
        "<a href=\"" ++ s ++ "\" target=\"_blank\">Open</a>") ∧
    (∀ (r : Row) (p : String × Value), p ∈ r →
      ¬(p.1 = "Map" ∨ p.1 = "Website") → p ∈ linkifyRow r) ∧
    (∀ (r : Row) (p : String × Value), p ∈ r →
      (p.1 = "Map" ∨ p.1 = "Website") →
      (p.1, Value.str (make_link p.2)) ∈ linkifyRow r) ∧
    make_link (Value.str "ftp://x.com") = "" := by
  have anchor_ne : ∀ s : String,
      "<a href=\"" ++ s ++ "\" target=\"_blank\">Open</a>" ≠ "" := by
    intro s h
    have h2 := congrArg String.data h
    rw [String.data_append, String.data_append] at h2
    have h3 := List.append_eq_nil.mp h2
    exact absurd h3.2 (by decide)
  refine ⟨?_, ?_, ?_, ?_, rfl⟩
  · intro v
    cases v with
    | null => simp [make_link]
    | num n => simp [make_link]
    | str s =>
      by_cases h : (strStartsWith s "http://" || strStartsWith s "https://") = true
      · simp only [make_link, if_pos h]
        constructor
        · intro _
          exact ⟨s, rfl, by simpa using h⟩
        · intro _
          exact anchor_ne s
      · simp only [make_link, if_neg h]
        constructor
        · intro hne; exact absurd rfl hne
        · rintro ⟨t, ht, hor⟩
          cases ht
          simp only [Bool.or_eq_true] at h
          rcases hor with h1 | h1 <;> exact absurd (by simp [h1]) h
  · intro s h
    have hb : (strStartsWith s "http://" || strStartsWith s "https://") = true := by
      rcases h with h1 | h1 <;> simp [h1]
    simp [make_link, hb]
  · intro r p hp hne
    unfold linkifyRow
    refine List.mem_map.mpr ⟨p, hp, ?_⟩
    show (if p.1 = "Map" ∨ p.1 = "Website" then (p.1, Value.str (make_link p.2))
      else p) = p
    rw [if_neg hne]
  · intro r p hp heq
    unfold linkifyRow
    refine List.mem_map.mpr ⟨p, hp, ?_⟩
    show (if p.1 = "Map" ∨ p.1 = "Website" then (p.1, Value.str (make_link p.2))
      else p) = (p.1, Value.str (make_link p.2))
    rw [if_pos heq]

/-- Witness for C8 at concrete cells: an https URL renders as an anchor and
a non-URL cell of a concrete row survives `linkify` unchanged. -/
theorem c8_linkify_http_https_only_witness :
    make_link (Value.str "https://x.com") =
      "<a href=\"" ++ "https://x.com" ++ "\" target=\"_blank\">Open</a>" ∧
    ("Phone", Value.str "555") ∈
      linkifyRow [("Phone", Value.str "555"), ("Map", Value.str "u")] ∧
    ("Map", Value.str (make_link (Value.str "u"))) ∈
      linkifyRow [("Phone", Value.str "555"), ("Map", Value.str "u")] :=
  ⟨c8_linkify_http_https_only.2.1 "https://x.com" (Or.inr (by decide)),
   c8_linkify_http_https_only.2.2.1 _ ("Phone", Value.str "555")
     (by simp) (by decide),
   c8_linkify_http_https_only.2.2.2.1 _ ("Map", Value.str "u")
     (by simp) (Or.inl rfl)⟩

/-- Claim C9: the pagination state machine starts at page 1; Next increments
only when `page < maxPage` and Prev decrements only when `page > 1`; every
stored page reachable across runs stays at least 1, and the per-run clamp
puts the page used for the query inside `[1, maxPage]`. -/
theorem c9_page_state_machine :
    initPage = 1 ∧
    (∀ p : Int, ReachablePage p → 1 ≤ p) ∧
    (∀ p m : Int, 1 ≤ m →
      1 ≤ clampPage p m ∧ clampPage p m ≤ m) ∧
    (∀ p m : Int, p < m → nextPage p m = p + 1) ∧
    (∀ p m : Int, ¬p < m → nextPage p m = p) ∧
    (∀ p : Int, 1 < p → prevPage p = p - 1) ∧
    (∀ p : Int, ¬1 < p → prevPage p = p) := by
  refine ⟨rfl, ?_, ?_, ?_, ?_, ?_, ?_⟩
  · intro p h
    induction h with
    | init => omega
    | stepNone h hm ih =>
        exact (clampPage_bounds _ _ hm).1
    | @stepNext p m h hm ih =>
        have hc := (clampPage_bounds p m hm).1
        unfold nextPage
        split <;> omega
    | @stepPrev p m h hm ih =>
        have hc := (clampPage_bounds p m hm).1
        unfold prevPage
        split <;> omega
  · exact fun p m hm => clampPage_bounds p m hm
  · intro p m h; simp [nextPage, h]
  · intro p m h; simp [nextPage, h]
  · intro p h; simp [prevPage, h]
  · intro p h; simp [prevPage, h]

/-- Witness for C9: the initial page is reachable and at least 1, a clamp
against `maxPage = 3` lands inside `[1, 3]`, and the two guarded
transitions fire at concrete pages. -/
theorem c9_page_state_machine_witness :
    (1 : Int) ≤ 1 ∧
    (1 ≤ clampPage 5 3 ∧ clampPage 5 3 ≤ 3) ∧
    nextPage 1 3 = 2 ∧ prevPage 2 = 1 :=
  ⟨c9_page_state_machine.2.1 1 ReachablePage.init,
   c9_page_state_machine.2.2.1 5 3 (by decide),
   c9_page_state_machine.2.2.2.1 1 3 (by decide),
   c9_page_state_machine.2.2.2.2.2.1 2 (by decide)⟩

/-- Claim C2 (code bug): on a schema where only the raw `name` column exists
(no `name_std`), the code still emits `ORDER BY COALESCE(name_std, name)`,
and executing the page query fails with a `no such column` error instead of
ordering by the one present name column; ordering does work when both name
columns exist and when neither exists (fallback to the first selected
column). -/
theorem c2_order_with_single_name_column_errors :
    (order_expr ["name", "city"] (select_list ["name", "city"]) =
      "COALESCE(name_std, name)") ∧
    (fetchPage ⟨["name", "city"], [[("name", Value.str "A"),
        ("city", Value.str "X")]]⟩ []
        (order_expr ["name", "city"] (select_list ["name", "city"])) 50 0 =
      Except.error "no such column: name_std") ∧
    (orderKeyOk ["name_std", "name"] "COALESCE(name_std, name)" =
      Except.ok ()) ∧
    (order_expr ["phone"] (select_list ["phone"]) = "phone") ∧
    (orderKeyOk ["phone"] (order_expr ["phone"] (select_list ["phone"])) =
      Except.ok ()) :=
  ⟨by decide, by rfl, by rfl, by decide, by rfl⟩

/-- Claim C3 (counterexample to the claim as stated): on a schema with only
the raw `name` column, the page query fails and the whole script run ends
in an uncaught error — the session does not complete with an inline
error view. -/
theorem c3_counterexample_failure_escapes_run :
    scriptRun ⟨["name", "city"], [[("name", Value.str "A"),
        ("city", Value.str "X")]]⟩ "" "(any)" "(any)" "" 50 1 =
      Except.error "no such column: name_std" := by rfl

/-- Claim C3 as amended: nothing in the script catches query failures — when
the page query raises, the exception propagates out of the run unchanged
(no `QueryError` value, no inline rendering). -/
theorem c3_query_failure_propagates_uncaught (db : Db)
    (q c s z : String) (ps : Nat) (p0 : Int) (msg : String)
    (hsel : ¬select_pairs db.cols = [])
    (hfail : fetchPage db (buildWhere db.cols q c s z)
        (order_expr db.cols (select_list db.cols)) ps
        (((clampPage p0
            (maxPage (countAll db (buildWhere db.cols q c s z)) ps : Int) - 1) *
          (ps : Int)).toNat) =
      Except.error msg) :
    scriptRun db q c s z ps p0 = Except.error msg := by
  unfold scriptRun
  rw [if_neg hsel, hfail]

/-- Witness for the amended C3 at a concrete schema whose page query fails. -/
theorem c3_query_failure_propagates_uncaught_witness :
    scriptRun ⟨["name", "city"], []⟩ "" "(any)" "(any)" "" 50 1 =
      Except.error "no such column: name_std" :=
  c3_query_failure_propagates_uncaught ⟨["name", "city"], []⟩
    "" "(any)" "(any)" "" 50 1 "no such column: name_std"
    (by decide) (by rfl)

/-- Claim C7 (counterexample to the claim as stated): the ZIP input is used
as a SQL LIKE pattern, so an input containing the wildcard `_` selects a
row whose postal code does not start with the input ("9_1" matches
"94102"). -/
theorem c7_counterexample_wildcard_input :
    ((⟨["postal_code"], [zipRow1]⟩ : Db).rows.filter
        (matchesAll (buildWhere ["postal_code"] "" "(any)" "(any)" "9_1"))) ≠
      ((⟨["postal_code"], [zipRow1]⟩ : Db).rows.filter
        (fun r =>
          match getVal r "postal_code" with
          | Value.str s => strStartsWith s (pyStrip "9_1")
          | _ => false)) := by decide

/-- Claim C7 as amended: the ZIP filter is applied exactly when the stripped
input is non-empty and a postal-code column resolves, and it conjoins the
SQLite predicate `postal LIKE stripped-input + "%"` — a prefix match for
wildcard-free inputs; in particular "941" against stored ZIPs
{94102, 94203, 94107} selects exactly the rows with 94102 and 94107. -/
theorem c7_zip_filter_is_like_on_stripped_input :
    (∀ (existing : List String) (q c s z : String),
      zip_field existing = none ∨ pyStrip z = "" →
      buildWhere existing q c s z = buildWhere existing q c s "") ∧
    (∀ (existing : List String) (q c s z f : String) (r : Row),
      zip_field existing = some f → pyStrip z ≠ "" →
      matchesAll (buildWhere existing q c s z) r =
        (matchesAll (buildWhere existing q c s "") r &&
          likeMatchV (pyStrip z ++ "%") (getVal r f))) ∧
    (zipDb.rows.filter
        (matchesAll (buildWhere zipDb.cols "" "(any)" "(any)" "941")) =
      [zipRow1, zipRow3]) := by
  refine ⟨?_, ?_, by decide⟩
  · intro existing q c s z h
    unfold buildWhere
    rcases h with h | h
    · rw [h]
    · rw [h, pyStrip_empty]
  · intro existing q c s z f r hf hz
    have hsplit : buildWhere existing q c s z =
        buildWhere existing q c s "" ++ [Clause.colLike f (pyStrip z ++ "%")] := by
      unfold buildWhere
      rw [hf, pyStrip_empty]
      simp [hz]
    rw [hsplit]
    unfold matchesAll
    rw [List.all_append]
    simp [evalClause]

/-- Witness for the amended C7: the inactive case at an absent postal column
and the active case on a concrete row. -/
theorem c7_zip_filter_is_like_on_stripped_input_witness :
    (buildWhere ["name"] "a" "(any)" "(any)" "941" =
      buildWhere ["name"] "a" "(any)" "(any)" "") ∧
    (matchesAll (buildWhere ["postal_code"] "" "(any)" "(any)" "941") zipRow2 =
      (matchesAll (buildWhere ["postal_code"] "" "(any)" "(any)" "") zipRow2 &&
        likeMatchV (pyStrip "941" ++ "%") (getVal zipRow2 "postal_code"))) :=
  ⟨c7_zip_filter_is_like_on_stripped_input.1 ["name"] "a" "(any)" "(any)" "941"
     (Or.inl (by decide)),
   c7_zip_filter_is_like_on_stripped_input.2.1 ["postal_code"]
     "" "(any)" "(any)" "941" "postal_code" zipRow2 (by decide) (by decide)⟩

theorem countQ_append (a b : String) :
    countQ (a ++ b) = countQ a + countQ b := by
  simp [countQ, String.toList, String.data_append]

theorem countQ_joinStr (sep : String) (hsep : countQ sep = 0)
    (l : List String) : countQ (joinStr sep l) = (l.map countQ).sum := by
  induction l with
  | nil => rfl
  | cons x xs ih =>
    cases xs with
    | nil => simp [joinStr]
    | cons y ys =>
      show countQ (x ++ sep ++ joinStr sep (y :: ys)) = _
      rw [countQ_append, countQ_append, hsep, ih]
      simp

theorem mem_kw_fields (existing : List String) (c : String)
    (h : c ∈ kw_fields existing) :
    c = "name_std" ∨ c = "name" ∨ c = "full_address" ∨ c = "site" := by
  have h1 := (List.mem_filter.mp h).1
  unfold name_col at h1
  split at h1 <;> [skip; split at h1] <;> simp at h1 <;> tauto

theorem state_field_cases (existing : List String) (f : String)
    (h : state_field existing = some f) : f = "state_std" ∨ f = "state" := by
  unfold state_field at h
  split at h <;> [skip; split at h] <;> simp_all

theorem zip_field_cases (existing : List String) (f : String)
    (h : zip_field existing = some f) :
    f = "postal_code_std" ∨ f = "postal_code" := by
  unfold zip_field at h
  split at h <;> [skip; split at h] <;> simp_all

theorem sum_map_eq_length (f : String → Nat) (l : List String)
    (h : ∀ x ∈ l, f x = 1) : (l.map f).sum = l.length := by
  induction l with
  | nil => rfl
  | cons a t ih =>
    have h2 := ih (fun x hx => h x (List.mem_cons_of_mem a hx))
    rw [List.map_cons, List.sum_cons, h a (List.mem_cons_self a t), h2,
      List.length_cons]
    omega

theorem countQ_clause_of_mem (existing : List String) (q c s z : String)
    (cl : Clause) (h : cl ∈ buildWhere existing q c s z) :
    countQ (renderClause cl) = (clauseParams cl).length := by
  unfold buildWhere at h
  simp only [List.mem_append] at h
  rcases h with ((hkw | hcity) | hstate) | hzip
  · split at hkw
    case isTrue =>
      simp only [List.mem_singleton] at hkw
      subst hkw
      show countQ ("(" ++ joinStr " OR "
          ((kw_fields existing).map (fun c => c ++ " LIKE ?")) ++ ")") =
        (List.replicate (kw_fields existing).length ("%" ++ q ++ "%")).length
      rw [countQ_append, countQ_append, countQ_joinStr " OR " (by decide),
        List.map_map, List.length_replicate]
      have hones : ∀ x ∈ kw_fields existing,
          (countQ ∘ fun c => c ++ " LIKE ?") x = 1 := by
        intro x hx
        have h4 := mem_kw_fields existing x hx
        show countQ (x ++ " LIKE ?") = 1
        rw [countQ_append]
        rcases h4 with h4 | h4 | h4 | h4 <;> subst h4 <;> decide
      rw [sum_map_eq_length _ _ hones]
      have e1 : countQ "(" = 0 := by decide
      have e2 : countQ ")" = 0 := by decide
      omega
    case isFalse => simp at hkw
  · split at hcity
    case isTrue =>
      simp only [List.mem_singleton] at hcity
      subst hcity
      show countQ ("city" ++ " = ?") = ([c]).length
      rw [countQ_append, List.length_singleton]
      decide
    case isFalse => simp at hcity
  · rcases hsf : state_field existing with _ | f <;> rw [hsf] at hstate
    · simp at hstate
    · simp only [] at hstate
      split at hstate
      case isTrue =>
        simp only [List.mem_singleton] at hstate
        subst hstate
        show countQ (f ++ " = ?") = ([s]).length
        rw [countQ_append, List.length_singleton]
        rcases state_field_cases existing f hsf with h4 | h4 <;> subst h4 <;>
          decide
      case isFalse => simp at hstate
  · rcases hzf : zip_field existing with _ | f <;> rw [hzf] at hzip
    · simp at hzip
    · simp only [] at hzip
      split at hzip
      case isTrue =>
        simp only [List.mem_singleton] at hzip
        subst hzip
        show countQ (f ++ " LIKE ?") = ([pyStrip z ++ "%"]).length
        rw [countQ_append, List.length_singleton]
        rcases zip_field_cases existing f hzf with h4 | h4 <;> subst h4 <;>
          decide
      case isFalse => simp at hzip

/-- Claim C10: for every filter set and schema, the number of bound
parameters equals the number of `?` placeholders in the generated WHERE
clause (the keyword group contributes one `%keyword%` per present
candidate column, and each of city/state/ZIP one parameter). -/
theorem c10_placeholder_count_eq_param_count (existing : List String)
    (q c s z : String) :
    countQ (whereSqlOf (buildWhere existing q c s z)) =
      (paramsOf (buildWhere existing q c s z)).length := by
  have key := countQ_clause_of_mem existing q c s z
  unfold whereSqlOf paramsOf
  by_cases hnil : buildWhere existing q c s z = []
  · rw [if_pos hnil, hnil]; rfl
  · rw [if_neg hnil, countQ_append, countQ_joinStr " AND " (by decide),
      List.length_flatten, List.map_map, List.map_map]
    have hmaps : (buildWhere existing q c s z).map (countQ ∘ renderClause) =
        (buildWhere existing q c s z).map (List.length ∘ clauseParams) :=
      List.map_congr_left (fun a ha => key a ha)
    rw [hmaps]
    have h0 : countQ "WHERE " = 0 := by decide
    omega

/-- Claim C5: two filter inputs that activate the same set of filters under
the same schema produce the identical WHERE-clause text and the identical
full page-query text — user values influence only the bound parameters,
never the SQL string. -/
theorem c5_sql_text_independent_of_values (existing : List String)
    (table q c s z q2 c2 s2 z2 : String)
    (hkw : (q ≠ "" ∧ kw_fields existing ≠ []) ↔
      (q2 ≠ "" ∧ kw_fields existing ≠ []))
    (hcity : ("city" ∈ existing ∧ c ≠ "(any)") ↔
      ("city" ∈ existing ∧ c2 ≠ "(any)"))
    (hstate : ((state_field existing).isSome = true ∧ s ≠ "(any)") ↔
      ((state_field existing).isSome = true ∧ s2 ≠ "(any)"))
    (hzip : ((zip_field existing).isSome = true ∧ pyStrip z ≠ "") ↔
      ((zip_field existing).isSome = true ∧ pyStrip z2 ≠ "")) :
    whereSqlOf (buildWhere existing q c s z) =
      whereSqlOf (buildWhere existing q2 c2 s2 z2) ∧
    pageSql table existing (buildWhere existing q c s z) =
      pageSql table existing (buildWhere existing q2 c2 s2 z2) := by
  have e1 : ((if q ≠ "" ∧ kw_fields existing ≠ [] then
        [Clause.kwGroup (kw_fields existing) ("%" ++ q ++ "%")]
      else []).map renderClause) =
      ((if q2 ≠ "" ∧ kw_fields existing ≠ [] then
        [Clause.kwGroup (kw_fields existing) ("%" ++ q2 ++ "%")]
      else []).map renderClause) := by
    by_cases hP : q ≠ "" ∧ kw_fields existing ≠ []
    · rw [if_pos hP, if_pos (hkw.mp hP)]; rfl
    · rw [if_neg hP, if_neg (fun h2 => hP (hkw.mpr h2))]
  have e2 : ((if "city" ∈ existing ∧ c ≠ "(any)" then [Clause.colEq "city" c]
      else []).map renderClause) =
      ((if "city" ∈ existing ∧ c2 ≠ "(any)" then [Clause.colEq "city" c2]
      else []).map renderClause) := by
    by_cases hP : "city" ∈ existing ∧ c ≠ "(any)"
    · rw [if_pos hP, if_pos (hcity.mp hP)]; rfl
    · rw [if_neg hP, if_neg (fun h2 => hP (hcity.mpr h2))]
  have e3 : ((match state_field existing with
      | some f => if s ≠ "(any)" then [Clause.colEq f s] else []
      | none => []).map renderClause) =
      ((match state_field existing with
      | some f => if s2 ≠ "(any)" then [Clause.colEq f s2] else []
      | none => []).map renderClause) := by
    cases hsf : state_field existing with
    | none => rfl
    | some f =>
      rw [hsf] at hstate
      simp only [Option.isSome_some, true_and] at hstate
      dsimp only
      by_cases hss : s ≠ "(any)"
      · rw [if_pos hss, if_pos (hstate.mp hss)]; rfl
      · rw [if_neg hss, if_neg (fun h2 => hss (hstate.mpr h2))]
  have e4 : ((match zip_field existing with
      | some f =>
          if pyStrip z ≠ "" then [Clause.colLike f (pyStrip z ++ "%")] else []
      | none => []).map renderClause) =
      ((match zip_field existing with
      | some f =>
          if pyStrip z2 ≠ "" then [Clause.colLike f (pyStrip z2 ++ "%")]
          else []
      | none => []).map renderClause) := by
    cases hzf : zip_field existing with
    | none => rfl
    | some f =>
      rw [hzf] at hzip
      simp only [Option.isSome_some, true_and] at hzip
      dsimp only
      by_cases hzz : pyStrip z ≠ ""
      · rw [if_pos hzz, if_pos (hzip.mp hzz)]; rfl
      · rw [if_neg hzz, if_neg (fun h2 => hzz (hzip.mpr h2))]
  have hmap : (buildWhere existing q c s z).map renderClause =
      (buildWhere existing q2 c2 s2 z2).map renderClause := by
    unfold buildWhere
    simp only [List.map_append]
    rw [e1, e2, e3, e4]
  have hempty : (buildWhere existing q c s z = []) ↔
      (buildWhere existing q2 c2 s2 z2 = []) := by
    constructor <;> intro hh
    · have h2 := hmap
      rw [hh] at h2
      exact List.map_eq_nil_iff.mp h2.symm
    · have h2 := hmap
      rw [hh] at h2
      exact List.map_eq_nil_iff.mp h2
  have hws : whereSqlOf (buildWhere existing q c s z) =
      whereSqlOf (buildWhere existing q2 c2 s2 z2) := by
    unfold whereSqlOf
    by_cases hn : buildWhere existing q c s z = []
    · rw [if_pos hn, if_pos (hempty.mp hn)]
    · rw [if_neg hn, if_neg (fun h2 => hn (hempty.mpr h2)), hmap]
  refine ⟨hws, ?_⟩
  unfold pageSql
  rw [hws]

/-- Witness for C5: keyword and ZIP filters active with different values,
city and state inactive — identical SQL text on both sides. -/
theorem c5_sql_text_independent_of_values_witness :
    whereSqlOf (buildWhere ["name", "city", "state", "postal_code"]
        "den" "(any)" "(any)" "94") =
      whereSqlOf (buildWhere ["name", "city", "state", "postal_code"]
        "ortho" "(any)" "(any)" "123") ∧
    pageSql "records" ["name", "city", "state", "postal_code"]
        (buildWhere ["name", "city", "state", "postal_code"]
          "den" "(any)" "(any)" "94") =
      pageSql "records" ["name", "city", "state", "postal_code"]
        (buildWhere ["name", "city", "state", "postal_code"]
          "ortho" "(any)" "(any)" "123") :=
  c5_sql_text_independent_of_values ["name", "city", "state", "postal_code"]
    "records" "den" "(any)" "(any)" "94" "ortho" "(any)" "(any)" "123"
    (by decide) (by decide) (by decide) (by decide)

end DentalDb

namespace DentalDb

theorem floor_form_eq_ceil (R P : Nat) (hP : 1 ≤ P) :
    (R + P - 1) / P = Nat.ceil ((R : ℚ) / (P : ℚ)) := by
  have hPQ : (0 : ℚ) < (P : ℚ) := by exact_mod_cast hP
  rcases Nat.eq_zero_or_pos R with hR | hR
  · subst hR
    rw [Nat.div_eq_of_lt (by omega)]
    simp
  · set m := (R + P - 1) / P with hm
    have h1 : m * P ≤ R + P - 1 := Nat.div_mul_le_self _ _
    have h2 : R + P - 1 < (m + 1) * P :=
      (Nat.div_lt_iff_lt_mul (by omega)).mp (by omega)
    have hm1 : 1 ≤ m := by
      rw [hm]
      exact (Nat.le_div_iff_mul_le (by omega)).mpr (by omega)
    have hsucc : (m + 1) * P = m * P + P := by ring
    have hpred : m * P = (m - 1) * P + P := by
      have hmeq : m = (m - 1) + 1 := by omega
      calc m * P = ((m - 1) + 1) * P := by rw [← hmeq]
        _ = (m - 1) * P + P := by ring
    symm
    rw [Nat.ceil_eq_iff (by omega)]
    constructor
    · have hnat : (m - 1) * P < R := by omega
      rw [lt_div_iff₀ hPQ]
      exact_mod_cast hnat
    · have hnat : R ≤ m * P := by
        rw [hsucc] at h2
        omega
      rw [div_le_iff₀ hPQ]
      exact_mod_cast hnat

/-- Claim C1: for every filtered count `R` and page size `P ≥ 1`, the derived
maximum page equals `max 1 ⌈R/P⌉`; every stored page is clamped into
`[1, maxPage]` before the offset is taken; with `R = 105`, `P = 50` the
maximum page is 3 and a stored page 4 is clamped to 3. -/
theorem c1_max_page_formula_and_clamp :
    (∀ R P : Nat, 1 ≤ P →
      maxPage R P = max 1 (Nat.ceil ((R : ℚ) / (P : ℚ)))) ∧
    (∀ (p : Int) (R P : Nat),
      1 ≤ clampPage p (maxPage R P : Int) ∧
      clampPage p (maxPage R P : Int) ≤ (maxPage R P : Int)) ∧
    (maxPage 105 50 = 3 ∧ clampPage 4 (maxPage 105 50 : Int) = 3) := by
  refine ⟨?_, ?_, by decide, by decide⟩
  · intro R P hP
    unfold maxPage
    rw [floor_form_eq_ceil R P hP]
  · intro p R P
    have hmp : 1 ≤ maxPage R P := le_max_left 1 _
    exact clampPage_bounds p (maxPage R P : Int) (by exact_mod_cast hmp)

/-- Witness for C1 at the spec scenario `R = 105`, `P = 50`. -/
theorem c1_max_page_formula_and_clamp_witness :
    maxPage 105 50 = max 1 (Nat.ceil ((105 : ℚ) / (50 : ℚ))) ∧
    (1 ≤ clampPage 4 (maxPage 105 50 : Int) ∧
      clampPage 4 (maxPage 105 50 : Int) ≤ (maxPage 105 50 : Int)) :=
  ⟨c1_max_page_formula_and_clamp.1 105 50 (by omega),
   c1_max_page_formula_and_clamp.2.1 4 105 50⟩

end DentalDb
